import Mathlib

/-!
Verification of the remote heap enumerator in
tools/swift-inspect/Sources/SwiftInspectAndroid (files CLib/heap.c,
CLib/proc.c, CLib/remote.c, ptrace.c).

The observer-side C code is embedded function by function.  Effects on the
target process (ptrace(2) calls, process_vm_readv / process_vm_writev
transfers, the contents of /proc/<pid>/maps, dlopen/dlsym) are modelled by
explicit oracle records that give the outcome of each primitive operation
in program order; the embedded functions are deterministic over those
oracles.  The aarch64 build of ptrace.c is the one embedded (the x86_64
build differs only in the stack push of the sentinel return address and in
the trap advance delta).  Machine words are Nat; none of the embedded
index or cursor arithmetic can reach 2^64 on the modelled paths, and the
kernel-supplied values (addresses, register values) are carried opaquely.
-/

/-- heap.c line 65: index of the max-valid-index word of the shared buffer
header. -/
def MAX_VALID_IDX : Nat := 0

/-- heap.c line 66: index of the next-free-index (cursor) word of the shared
buffer header. -/
def NEXT_FREE_IDX : Nat := 1

/-- heap.c line 67: number of 64-bit words in the shared buffer header. -/
def HEADER_SIZE : Nat := 2

/-- heap.c line 68: number of 64-bit words in one (base, size) entry. -/
def ENTRY_SIZE : Nat := 2

/-- proc.h: maps_entry_t, one parsed line of /proc/<pid>/maps.  The char
buffers permissions, device and pathname are modelled as the strings sscanf
stored in them. -/
structure maps_entry_t where
  start_addr : Nat
  end_addr : Nat
  permissions : String
  offset : Nat
  device : String
  inode : Nat
  pathname : String
deriving DecidableEq, Repr

/-! ## Drain of the shared buffer: malloc_iterate_process_remote_entries -/

/-- Oracle for one invocation of malloc_iterate_process_remote_entries
(heap.c lines 104-137).  word i is the 64-bit word at index i of the remote
data page as process_vm_readv would deliver it; read_ok n tells whether the
n-th remote_read_memory call of this invocation succeeds (call 0 reads the
header, call n+1 reads the n-th entry); write_ok tells whether the final
remote_write_memory of the header succeeds. -/
structure DrainEnv where
  word : Nat → Nat
  read_ok : Nat → Bool
  write_ok : Bool

/-- Result of one drain: the bool the C function returns, the (base, size)
pairs passed to the user callback in order, the header words written back
(none if the write was never attempted), and the amount added to
total_items. -/
structure DrainResult where
  ok : Bool
  calls : List (Nat × Nat)
  header_write : Option (Nat × Nat)
  items : Nat
deriving DecidableEq, Repr

/-- The entry loop of malloc_iterate_process_remote_entries (heap.c lines
116-125): for (idx = HEADER_SIZE; idx < cur; idx += ENTRY_SIZE) read one
entry and deliver it to the callback; a failed read is the early return
false of line 122.  fuel bounds the recursion and is chosen ≥ the number of
iterations at every call site. -/
def drain_loop (env : DrainEnv) (cur : Nat) : Nat → Nat → Nat → List (Nat × Nat) × Bool
  | 0, _, _ => ([], true)
  | fuel + 1, idx, rd =>
    if idx < cur then
      if env.read_ok rd then
        let rest := drain_loop env cur fuel (idx + ENTRY_SIZE) (rd + 1)
        ((env.word idx, env.word (idx + 1)) :: rest.1, rest.2)
      else ([], false)
    else ([], true)

/-- malloc_iterate_process_remote_entries (heap.c lines 104-137): read the
two header words, fail if the cursor exceeds the max valid index (line
113), deliver the stored entries in order, account total_items (lines
127-129), then reset the cursor to HEADER_SIZE and write the header back
(lines 132-134). -/
def malloc_iterate_process_remote_entries (env : DrainEnv) : DrainResult :=
  if ¬ env.read_ok 0 then ⟨false, [], none, 0⟩
  else
    let maxv := env.word MAX_VALID_IDX
    let cur := env.word NEXT_FREE_IDX
    if cur > maxv then ⟨false, [], none, 0⟩
    else
      let loop := drain_loop env cur cur HEADER_SIZE 1
      if ¬ loop.2 then ⟨false, loop.1, none, 0⟩
      else
        let items := if cur > HEADER_SIZE then (cur - HEADER_SIZE) / ENTRY_SIZE else 0
        ⟨env.write_ok, loop.1, some (maxv, HEADER_SIZE), items⟩

/-! ## Region filter of the heap walk -/

/-- The guard at the head of maps_iterate_remote_malloc_iterate (heap.c
lines 139-148): true exactly when the callback falls through both early
returns and invokes remote_malloc_iterate on the region.  The first memcmp
compares sizeof("[anon:libc_malloc]") bytes, terminator included, hence
exact string equality; the other two compare sizeof − 1 bytes, hence
string prefixes. -/
def region_walked (e : maps_entry_t) : Bool :=
  if (e.permissions.data.head?.getD ' ') ≠ 'r' then false
  else if !(e.pathname == "[anon:libc_malloc]")
      && !(String.isPrefixOf "[anon:scudo:" e.pathname)
      && !(String.isPrefixOf "[anon:GWP-ASan" e.pathname) then false
  else true

/-! ## Theorems for claim C5 -/

theorem drain_loop_all_reads_ok (env : DrainEnv) (cur : Nat)
    (hr : ∀ i, env.read_ok i = true) :
    ∀ fuel idx rd, cur ≤ idx + 2 * fuel →
      drain_loop env cur fuel idx rd =
        ((List.range ((cur - idx + 1) / 2)).map
          (fun i => (env.word (idx + 2 * i), env.word (idx + 1 + 2 * i))), true) := by
  intro fuel
  induction fuel with
  | zero =>
    intro idx rd hle
    simp only [Nat.mul_zero, Nat.add_zero] at hle
    have h0 : cur - idx = 0 := Nat.sub_eq_zero_of_le hle
    have hnlt : ¬ idx < cur := Nat.not_lt.mpr hle
    simp [drain_loop, h0]
  | succ fuel ih =>
    intro idx rd hle
    by_cases hlt : idx < cur
    · have hle2 : cur ≤ (idx + ENTRY_SIZE) + 2 * fuel := by
        simp only [ENTRY_SIZE]; omega
      have hrest := ih (idx + ENTRY_SIZE) (rd + 1) hle2
      simp only [drain_loop, hlt, if_true, hr rd, hrest]
      have hcount : (cur - idx + 1) / 2 = ((cur - (idx + ENTRY_SIZE) + 1) / 2) + 1 := by
        simp only [ENTRY_SIZE]; omega
      rw [hcount, List.range_succ_eq_map, List.map_cons, List.map_map]
      rw [Prod.mk.injEq, List.cons.injEq]
      refine ⟨⟨?_, ?_⟩, rfl⟩
      · simp
      · apply List.map_congr_left
        intro i _
        simp only [Function.comp_apply, Nat.succ_eq_add_one, ENTRY_SIZE]
        have e1 : idx + 2 + 2 * i = idx + 2 * (i + 1) := by omega
        have e2 : idx + 2 + 1 + 2 * i = idx + 1 + 2 * (i + 1) := by omega
        rw [e1, e2]
    · have h0 : (cur - idx + 1) / 2 = 0 := by omega
      simp [drain_loop, hlt, h0]

/-- C5: every drain reads the two-word header, fails if the cursor exceeds
the max valid index, delivers each stored (base, size) pair to the user
callback in buffer order, then resets the cursor to HEADER_SIZE and writes
the header back.  The cursor is an even word count 2 * m (the walk
invariant proved for C9); with all memory transfers succeeding the drain
delivers exactly the m − 1 complete pairs below the cursor and rewrites the
header as (max, HEADER_SIZE). -/
theorem drain_delivers_entries_and_resets (env : DrainEnv) (m : Nat)
    (hcur : env.word NEXT_FREE_IDX = 2 * m)
    (hr : ∀ i, env.read_ok i = true) (hw : env.write_ok = true) :
    (env.word NEXT_FREE_IDX ≤ env.word MAX_VALID_IDX →
      malloc_iterate_process_remote_entries env =
        ⟨true,
         (List.range (m - 1)).map
           (fun i => (env.word (2 + 2 * i), env.word (3 + 2 * i))),
         some (env.word MAX_VALID_IDX, HEADER_SIZE), m - 1⟩) ∧
    (env.word MAX_VALID_IDX < env.word NEXT_FREE_IDX →
      malloc_iterate_process_remote_entries env = ⟨false, [], none, 0⟩) := by
  constructor
  · intro hle
    have hloop := drain_loop_all_reads_ok env (env.word NEXT_FREE_IDX) hr
      (env.word NEXT_FREE_IDX) HEADER_SIZE 1 (by simp only [HEADER_SIZE]; omega)
    have hcount : (env.word NEXT_FREE_IDX - HEADER_SIZE + 1) / 2 = m - 1 := by
      simp only [HEADER_SIZE, hcur]; omega
    rw [hcount] at hloop
    have hnot : ¬ env.word NEXT_FREE_IDX > env.word MAX_VALID_IDX := Nat.not_lt.mpr hle
    have hitems : (if env.word NEXT_FREE_IDX > HEADER_SIZE then
        (env.word NEXT_FREE_IDX - HEADER_SIZE) / ENTRY_SIZE else 0) = m - 1 := by
      simp only [HEADER_SIZE, ENTRY_SIZE, hcur]
      by_cases hm : 2 * m > 2
      · simp only [hm, if_true]; omega
      · simp only [hm, if_false]; omega
    simp only [malloc_iterate_process_remote_entries, hr 0, not_true, if_false,
      Bool.not_true, hnot, hloop, Bool.not_false, ite_false, ite_true, hitems, hw]
    rfl
  · intro hgt
    have hgt2 : env.word NEXT_FREE_IDX > env.word MAX_VALID_IDX := hgt
    simp [malloc_iterate_process_remote_entries, hr 0, hgt2]

/-- Concrete drain environment for the C5 witness: max valid index 8,
cursor 6, entries (10, 20) and (30, 40). -/
def drainEnvW : DrainEnv :=
  ⟨fun i => [8, 6, 10, 20, 30, 40].getD i 0, fun _ => true, true⟩

theorem drain_delivers_entries_and_resets_witness :
    (drainEnvW.word NEXT_FREE_IDX ≤ drainEnvW.word MAX_VALID_IDX →
      malloc_iterate_process_remote_entries drainEnvW =
        ⟨true,
         (List.range (3 - 1)).map
           (fun i => (drainEnvW.word (2 + 2 * i), drainEnvW.word (3 + 2 * i))),
         some (drainEnvW.word MAX_VALID_IDX, HEADER_SIZE), 3 - 1⟩) ∧
    (drainEnvW.word MAX_VALID_IDX < drainEnvW.word NEXT_FREE_IDX →
      malloc_iterate_process_remote_entries drainEnvW = ⟨false, [], none, 0⟩) :=
  drain_delivers_entries_and_resets drainEnvW 3 rfl (fun _ => rfl) rfl

/-! ## The heap iterator: heap_iterate (heap.c lines 164-223)

The remote primitives of remote.c are oracles: each field of HeapEnv gives
the outcome of the corresponding call in program order.  The per-region
drains performed while malloc_iterate runs remotely (through the trap
callback) are folded into the result of the remote_malloc_iterate call
itself, exactly as heap_iterate observes them; drain_ok k is the outcome
of the k-th drain performed directly by maps_iterate_remote_malloc_iterate
(heap.c line 158) after the k-th walked region. -/

structure HeapEnv where
  /-- getpagesize(). -/
  page : Nat
  /-- remote_callback_end − remote_callback_start (heap.c lines 181-182). -/
  cb_len : Nat
  /-- outcome of the remote_mmap of the data page (heap.c line 169). -/
  mmap_data : Option Nat
  /-- outcome of the remote_write_memory of the header (heap.c line 177). -/
  write_header_ok : Bool
  /-- outcome of the remote_mmap of the code page (heap.c line 187). -/
  mmap_code : Option Nat
  /-- outcome of the remote_write_memory of the trampoline (heap.c line 191). -/
  write_code_ok : Bool
  /-- outcome of remote_malloc_disable (heap.c line 196). -/
  malloc_disable_ok : Bool
  /-- whether fopen of /proc/<pid>/maps succeeds (proc.c line 25). -/
  maps_open_ok : Bool
  /-- the parsed region records of the /proc/<pid>/maps snapshot. -/
  regions : List maps_entry_t
  /-- outcome of the k-th remote_malloc_iterate call (heap.c line 153). -/
  rmi_ok : Nat → Bool
  /-- outcome of the k-th post-region drain (heap.c line 158). -/
  drain_ok : Nat → Bool
  /-- outcome of remote_malloc_enable (heap.c line 211). -/
  malloc_enable_ok : Bool
  /-- outcome of the remote_munmap of the data page (heap.c line 220). -/
  munmap_data_ok : Bool
  /-- outcome of the remote_munmap of the code page (heap.c line 221). -/
  munmap_code_ok : Bool

/-- n & ~(page − 1); the mask arithmetic of heap.c line 184, for page a
power of two. -/
def page_round_down (page n : Nat) : Nat := n - n % page

/-- remote_code_size (heap.c lines 183-184): the trampoline length rounded
up to a page multiple. -/
def remote_code_size (env : HeapEnv) : Nat :=
  page_round_down env.page (env.cb_len + env.page - 1)

/-- The maps_iterate traversal (proc.c lines 34-44) running the callback
maps_iterate_remote_malloc_iterate (heap.c lines 139-162).  k counts the
walked regions.  On a walked region the callback first calls
remote_malloc_iterate, whose failure only prints a diagnostic (heap.c line
156), then drains; a failed drain makes the callback return false, which
stops the traversal (proc.c line 43).  Returns the regions on which
remote_malloc_iterate was invoked, in order. -/
def heap_walk (env : HeapEnv) : List maps_entry_t → Nat → List maps_entry_t
  | [], _ => []
  | e :: rest, k =>
    if region_walked e then
      if env.drain_ok k then e :: heap_walk env rest (k + 1)
      else [e]
    else heap_walk env rest k

/-- Observable outcome of one heap_iterate run: the returned bool, the
header words passed to the initial remote_write_memory (word 0 =
MAX_VALID_IDX, word 1 = NEXT_FREE_IDX; none if that write was never
reached), the walked regions, and the remote_munmap calls issued at exit
as (addr, len) pairs, where none stands for an indeterminate value (a goto
exit that jumps over the initialization of remote_code_addr and
remote_code_size, heap.c lines 171 and 179 versus 181-185). -/
structure HeapRun where
  result : Bool
  header_write : Option (Nat × Nat)
  walked : List maps_entry_t
  munmap_calls : List (Option Nat × Option Nat)
deriving DecidableEq, Repr

/-- heap_iterate (heap.c lines 164-223).  Note three facts of the source
faithfully kept here: the return value of maps_iterate is discarded (heap.c
line 208); the context field failed is initialized to false, checked at
line 214, and never assigned anywhere, so the check cannot fire; and the
two remote_munmap calls at exit run unconditionally, data page first, with
their results ignored. -/
def heap_iterate (env : HeapEnv) : HeapRun :=
  match env.mmap_data with
  | none => ⟨false, none, [], [(some 0, some env.page), (none, none)]⟩
  | some data_addr =>
    let hdr : Nat × Nat := (env.page / 8, HEADER_SIZE)
    if ¬ env.write_header_ok then
      ⟨false, some hdr, [], [(some data_addr, some env.page), (none, none)]⟩
    else
      let code_size := remote_code_size env
      match env.mmap_code with
      | none =>
        ⟨false, some hdr, [],
         [(some data_addr, some env.page), (some 0, some code_size)]⟩
      | some code_addr =>
        let fin := fun (r : Bool) (w : List maps_entry_t) =>
          (⟨r, some hdr, w,
            [(some data_addr, some env.page), (some code_addr, some code_size)]⟩ : HeapRun)
        if ¬ env.write_code_ok then fin false []
        else if ¬ env.malloc_disable_ok then fin false []
        else
          let walked := if env.maps_open_ok then heap_walk env env.regions 0 else []
          if ¬ env.malloc_enable_ok then fin false walked
          else fin true walked

/-! ## Theorems for claims C1, C4, C7, C8 -/

/-- A heap region of the target: readable, backed by [anon:libc_malloc]. -/
def rgnC1 : maps_entry_t := ⟨65536, 131072, "rw-p", 0, "00:00", 0, "[anon:libc_malloc]"⟩

/-- Run of heap_iterate in which provisioning, malloc_disable and
malloc_enable all succeed, one heap region is walked, and both the
remote_malloc_iterate call and the drain of the shared buffer for that
region fail. -/
def envC1 : HeapEnv :=
  ⟨4096, 100, some 8192, true, some 12288, true, true, true, [rgnC1],
   fun _ => false, fun _ => false, true, true, true⟩

/-- C1 (code bug): heap_iterate returns true although the
remote_malloc_iterate call and the drain of the shared buffer for the
walked region both failed.  The failed flag of the context is never set by
any code path, so walk failures cannot reach the check at heap.c line 214,
and the return value of maps_iterate is discarded at line 208. -/
theorem heap_iterate_true_despite_walk_failure :
    (heap_iterate envC1).result = true ∧
    envC1.rmi_ok 0 = false ∧ envC1.drain_ok 0 = false ∧
    (heap_iterate envC1).walked = [rgnC1] := by decide

/-- Environment for the C4 and C8 counterexamples: page size 4096,
trampoline of 100 bytes, both pages mapped, empty region list. -/
def envC8 : HeapEnv :=
  ⟨4096, 100, some 8192, true, some 12288, true, true, true, [],
   fun _ => true, fun _ => true, true, true, true⟩

/-- C4 counterexample: with page size 4096 the initial header written at
data_addr is (512, 2): the first word is 4096 / 8 = 512, the number of
64-bit words in the page, which differs from the claimed
max_entries = page / entry_stride = 4096 / 16 = 256 and from
(page − header_bytes) / entry_bytes = 255. -/
theorem heap_header_max_is_word_count :
    (heap_iterate envC8).header_write = some (512, 2) ∧
    (512 : Nat) ≠ 4096 / 16 ∧ (512 : Nat) ≠ (4096 - 16) / 16 ∧
    envC8.page = 4096 := by decide

/-- C4 (amended): whenever the data page was mapped, the initial header
write stores cursor = HEADER_SIZE = 2 in the NEXT_FREE_IDX word and
page / 8 — the max valid 64-bit word index of the page, not an entry
count — in the MAX_VALID_IDX word (heap.c lines 173-175). -/
theorem heap_header_init (env : HeapEnv) (d : Nat) (h : env.mmap_data = some d) :
    (heap_iterate env).header_write = some (env.page / 8, HEADER_SIZE) := by
  unfold heap_iterate
  rw [h]
  by_cases h1 : env.write_header_ok <;> simp only [h1] <;>
    cases h2 : env.mmap_code <;>
      by_cases h3 : env.write_code_ok <;>
        by_cases h4 : env.malloc_disable_ok <;>
          by_cases h5 : env.malloc_enable_ok <;>
            simp [h1, h3, h4, h5]

theorem heap_header_init_witness :
    (heap_iterate envC8).header_write = some (envC8.page / 8, HEADER_SIZE) :=
  heap_header_init envC8 8192 rfl

theorem heap_walk_all_drains_ok (env : HeapEnv) (hd : ∀ k, env.drain_ok k = true) :
    ∀ l k, heap_walk env l k = l.filter region_walked := by
  intro l
  induction l with
  | nil => intro k; rfl
  | cons e rest ih =>
    intro k
    by_cases hs : region_walked e
    · simp [heap_walk, hs, hd k, List.filter_cons, ih (k + 1)]
    · simp [heap_walk, hs, List.filter_cons, ih k]

theorem region_walked_iff (e : maps_entry_t) :
    region_walked e = true ↔
      (e.permissions.data.head? = some 'r' ∧
        (e.pathname = "[anon:libc_malloc]" ∨
         String.isPrefixOf "[anon:scudo:" e.pathname = true ∨
         String.isPrefixOf "[anon:GWP-ASan" e.pathname = true)) := by
  unfold region_walked
  by_cases hh : e.permissions.data.head? = some 'r'
  · rw [hh]
    rw [if_neg (by simp)]
    cases hb1 : (e.pathname == "[anon:libc_malloc]") <;>
      cases hb2 : String.isPrefixOf "[anon:scudo:" e.pathname <;>
        cases hb3 : String.isPrefixOf "[anon:GWP-ASan" e.pathname <;>
          simp_all [beq_iff_eq]
  · have hch : (e.permissions.data.head?.getD ' ') ≠ 'r' := by
      cases hc : e.permissions.data.head? with
      | none => decide
      | some ch =>
        simp only [Option.getD_some]
        intro h
        exact hh (by rw [hc, h])
    rw [if_pos hch]
    simp [hh]

/-- C7: a region reaching the walk callback has remote_malloc_iterate
invoked on it exactly when its first permission character is r and its
backing path is [anon:libc_malloc] exactly, or begins with [anon:scudo: or
with [anon:GWP-ASan; consequently a full traversal (provisioning done, the
maps file open, no drain failure stopping it early) walks exactly the
matching regions of the snapshot, in order. -/
theorem heap_walk_selects_heap_regions (env : HeapEnv)
    (hdata : env.mmap_data.isSome = true) (hwh : env.write_header_ok = true)
    (hcode : env.mmap_code.isSome = true) (hwc : env.write_code_ok = true)
    (hdis : env.malloc_disable_ok = true) (hopen : env.maps_open_ok = true)
    (hdr : ∀ k, env.drain_ok k = true) :
    (heap_iterate env).walked = env.regions.filter region_walked ∧
    (∀ e, region_walked e = true ↔
      (e.permissions.data.head? = some 'r' ∧
        (e.pathname = "[anon:libc_malloc]" ∨
         String.isPrefixOf "[anon:scudo:" e.pathname = true ∨
         String.isPrefixOf "[anon:GWP-ASan" e.pathname = true))) := by
  constructor
  · obtain ⟨d, hd⟩ := Option.isSome_iff_exists.mp hdata
    obtain ⟨c, hc⟩ := Option.isSome_iff_exists.mp hcode
    unfold heap_iterate
    rw [hd, hc]
    by_cases h5 : env.malloc_enable_ok <;>
      simp [hwh, hwc, hdis, hopen, h5, heap_walk_all_drains_ok env hdr]
  · exact region_walked_iff

/-- Map snapshot for the C7 witness: a bionic heap region, a Scudo region,
a file-backed library region and an unreadable heap region. -/
def envC7 : HeapEnv :=
  ⟨4096, 100, some 8192, true, some 12288, true, true, true,
   [⟨65536, 131072, "rw-p", 0, "00:00", 0, "[anon:libc_malloc]"⟩,
    ⟨200000, 210000, "r--p", 0, "00:00", 0, "[anon:scudo:primary]"⟩,
    ⟨300000, 310000, "r-xp", 0, "fe:00", 44, "/system/lib64/libc.so"⟩,
    ⟨400000, 410000, "---p", 0, "00:00", 0, "[anon:libc_malloc]"⟩],
   fun _ => true, fun _ => true, true, true, true⟩

theorem heap_walk_selects_heap_regions_witness :
    (heap_iterate envC7).walked = envC7.regions.filter region_walked ∧
    (∀ e, region_walked e = true ↔
      (e.permissions.data.head? = some 'r' ∧
        (e.pathname = "[anon:libc_malloc]" ∨
         String.isPrefixOf "[anon:scudo:" e.pathname = true ∨
         String.isPrefixOf "[anon:GWP-ASan" e.pathname = true))) :=
  heap_walk_selects_heap_regions envC7 rfl rfl rfl rfl rfl rfl (fun _ => rfl)

/-- C8 counterexample: on a fully successful run that mapped the data page
at 8192 (first) and the code page at 12288 (second), the teardown munmaps
the data page first and the code page second — the order of creation, not
the reverse. -/
theorem heap_munmap_order_not_reversed :
    (heap_iterate envC8).munmap_calls =
      [(some 8192, some 4096), (some 12288, some 4096)] ∧
    (heap_iterate envC8).munmap_calls ≠
      [(some 12288, some 4096), (some 8192, some 4096)] := by decide

/-- C8 (amended): every exit from heap_iterate, failures included, issues
exactly two remote_munmap calls with their results ignored: the data page
(address as left by the data remote_mmap, initially 0) first and the code
page second — creation order.  On the two exits taken before the goto
target of the code page variables is crossed (data mmap failure, header
write failure) the code page munmap receives indeterminate arguments. -/
theorem heap_munmaps_unconditional_in_creation_order (env : HeapEnv) :
    (heap_iterate env).munmap_calls =
      [(some (env.mmap_data.getD 0), some env.page),
       if env.mmap_data.isSome && env.write_header_ok then
         (some (env.mmap_code.getD 0), some (remote_code_size env))
       else (none, none)] := by
  unfold heap_iterate
  cases hd : env.mmap_data with
  | none => simp [hd]
  | some d =>
    by_cases h1 : env.write_header_ok
    · cases hc : env.mmap_code with
      | none => simp [hd, h1, hc]
      | some c =>
        by_cases h3 : env.write_code_ok <;>
          by_cases h4 : env.malloc_disable_ok <;>
            by_cases h5 : env.malloc_enable_ok <;>
              simp [hd, h1, hc, h3, h4, h5]
    · simp [hd, h1]

/-! ## The remote function caller: ptrace.c, aarch64 build -/

/-- SIGTRAP signal number. -/
def SIGTRAP : Nat := 5

/-- SIGSEGV signal number. -/
def SIGSEGV : Nat := 11

/-- aarch64 user_pt_regs (ptrace.c line 26): regs holds x0 .. x30 as a
31-element list in every modelled run. -/
structure RegisterSet where
  regs : List Nat
  sp : Nat
  pc : Nat
  pstate : Nat
deriving DecidableEq, Repr

/-- registers_setup_call, aarch64 variant (ptrace.c lines 29-40): put the
six arguments in x0 .. x5, the function address in pc, and the sentinel
return address in the link register x30. -/
def registers_setup_call (r : RegisterSet) (args : List Nat)
    (func_addr return_addr : Nat) : RegisterSet :=
  { r with
    regs := ((((((r.regs.set 0 (args.getD 0 0)).set 1 (args.getD 1 0)).set 2
      (args.getD 2 0)).set 3 (args.getD 3 0)).set 4 (args.getD 4 0)).set 5
      (args.getD 5 0)).set 30 return_addr
    pc := func_addr }

/-- registers_retval, aarch64 variant (ptrace.c lines 42-45): x0. -/
def registers_retval (r : RegisterSet) : Nat := r.regs.getD 0 0

/-- One waitpid outcome observed by the loop at ptrace.c lines 206-245:
EINTR (retried), a hard waitpid error, WIFEXITED or WIFSIGNALED, a
WIFSTOPPED status with the given signal, or a status that is none of
those (the loop just continues). -/
inductive WaitEvent where
  | eintr
  | werror
  | exited
  | stopped (sig : Nat)
  | other
deriving DecidableEq, Repr

/-- How the waitpid loop ended: at a stop with the given terminal signal,
with a waitpid error, with target death, or never (the modelled event list
ran out; the real loop would block in waitpid forever). -/
inductive LoopExit where
  | finalStop (sig : Nat)
  | waitErr
  | procExit
  | hung
deriving DecidableEq, Repr

/-- Oracle for one ptrace_call_remote_function_with_trap_callback run.
Fields give the outcome of each ptrace(2) call in program order; the
Nat-indexed fields give the outcome of the calls made while handling the
n-th SIGTRAP. -/
structure PtraceEnv where
  /-- PTRACE_ATTACH plus the attach waitpid loop (ptrace.c lines 82-106). -/
  attach_ok : Bool
  /-- first PTRACE_GETREGSET (line 179); the value is the register snapshot
  that becomes the backup. -/
  init_regs : Option RegisterSet
  /-- PTRACE_SETREGSET of the hijacked registers (line 201). -/
  setregs0_ok : Bool
  /-- first PTRACE_CONT (line 202). -/
  cont0_ok : Bool
  /-- whether a trap callback was supplied (non-NULL trap_callback). -/
  has_cb : Bool
  /-- the waitpid outcomes consumed by the loop, in order. -/
  waits : List WaitEvent
  /-- outcome of the trap callback on the n-th SIGTRAP (line 226). -/
  cb_ok : Nat → Bool
  /-- PTRACE_GETREGSET during n-th SIGTRAP handling (line 230). -/
  trap_getregs : Nat → Option RegisterSet
  /-- PTRACE_SETREGSET during n-th SIGTRAP handling (line 239). -/
  trap_setregs_ok : Nat → Bool
  /-- PTRACE_CONT during n-th SIGTRAP handling (line 242). -/
  trap_cont_ok : Nat → Bool
  /-- PTRACE_GETSIGINFO after the loop (line 248): si_addr, none on error. -/
  siginfo_addr : Option Nat
  /-- final PTRACE_GETREGSET (line 251) reading the stopped registers. -/
  final_regs : Option RegisterSet
  /-- PTRACE_SETREGSET restoring the backup (line 252). -/
  restore_ok : Bool
  /-- PTRACE_DETACH (line 253). -/
  detach_ok : Bool

/-- Observable outcome of one run: the returned bool, the value stored
through func_result (none when the final store at line 256 was never
reached, leaving the output parameter unmodified), every register set
successfully injected with PTRACE_SETREGSET in order, and whether
PTRACE_DETACH succeeded. -/
structure PtraceOutcome where
  success : Bool
  result_written : Option Nat
  setregs_hist : List RegisterSet
  detached : Bool
deriving DecidableEq, Repr

/-- The waitpid loop (ptrace.c lines 205-245).  Stops that are not SIGTRAP,
or SIGTRAP without a callback, end the loop; a SIGTRAP with a callback runs
the callback and, on success, re-reads the registers, advances pc by 4 past
the brk instruction, reinjects and continues; any failure in that sequence
breaks out of the loop with the SIGTRAP status still in hand.  Returns the
loop exit and the register sets successfully injected during trap handling,
in order. -/
def wait_loop (env : PtraceEnv) : List WaitEvent → Nat → LoopExit × List RegisterSet
  | [], _ => (.hung, [])
  | .eintr :: rest, n => wait_loop env rest n
  | .other :: rest, n => wait_loop env rest n
  | .werror :: _, _ => (.waitErr, [])
  | .exited :: _, _ => (.procExit, [])
  | .stopped sig :: rest, n =>
    if ¬ env.has_cb ∨ sig ≠ SIGTRAP then (.finalStop sig, [])
    else if ¬ env.cb_ok n then (.finalStop sig, [])
    else
      match env.trap_getregs n with
      | none => (.finalStop sig, [])
      | some r =>
        let r4 := { r with pc := r.pc + 4 }
        if ¬ env.trap_setregs_ok n then (.finalStop sig, [])
        else if ¬ env.trap_cont_ok n then (.finalStop sig, [r4])
        else
          let next := wait_loop env rest (n + 1)
          (next.1, r4 :: next.2)

/-- ptrace_call_remote_function_with_trap_callback (ptrace.c lines
171-261), aarch64 build: attach, snapshot the registers as backup, hijack
them onto func_addr with sentinel return address 0, continue, run the
waitpid loop, read siginfo and the stopped registers, restore the backup,
detach, store the retval through func_result, and succeed only when the
terminal stop was SIGSEGV at address 0.  none models a run whose waitpid
loop never ends. -/
def ptrace_call_remote_function_with_trap_callback (env : PtraceEnv)
    (func_addr : Nat) (args : List Nat) : Option PtraceOutcome :=
  if ¬ env.attach_ok then some ⟨false, none, [], false⟩
  else
    match env.init_regs with
    | none => some ⟨false, none, [], false⟩
    | some regs0 =>
      let call_regs := registers_setup_call regs0 args func_addr 0
      if ¬ env.setregs0_ok then some ⟨false, none, [], false⟩
      else if ¬ env.cont0_ok then some ⟨false, none, [call_regs], false⟩
      else
        match wait_loop env env.waits 0 with
        | (.hung, _) => none
        | (.waitErr, h) => some ⟨false, none, call_regs :: h, false⟩
        | (.procExit, h) => some ⟨false, none, call_regs :: h, false⟩
        | (.finalStop sig, h) =>
          match env.siginfo_addr with
          | none => some ⟨false, none, call_regs :: h, false⟩
          | some addr =>
            match env.final_regs with
            | none => some ⟨false, none, call_regs :: h, false⟩
            | some stop_regs =>
              if ¬ env.restore_ok then some ⟨false, none, call_regs :: h, false⟩
              else if ¬ env.detach_ok then
                some ⟨false, none, (call_regs :: h) ++ [regs0], false⟩
              else
                some ⟨(sig == SIGSEGV) && (addr == 0),
                      some (registers_retval stop_regs),
                      (call_regs :: h) ++ [regs0], true⟩

/-- Whether the run gets through every step after the terminal stop:
getsiginfo, the final getregs, the restore of the backup and the detach
(ptrace.c lines 247-254).  The value stored through func_result exists
exactly on such runs. -/
def reaches_final_store (env : PtraceEnv) : Bool :=
  env.attach_ok && env.init_regs.isSome && env.setregs0_ok && env.cont0_ok &&
    (match (wait_loop env env.waits 0).1 with
     | .finalStop _ => true
     | _ => false) &&
    env.siginfo_addr.isSome && env.final_regs.isSome && env.restore_ok &&
    env.detach_ok

/-- Whether the terminal stop of the loop is SIGSEGV with si_addr zero, the
signature of the sentinel return (ptrace.c line 260). -/
def terminal_segv_zero (env : PtraceEnv) : Bool :=
  (match (wait_loop env env.waits 0).1 with
   | .finalStop sig => sig == SIGSEGV
   | _ => false) && (env.siginfo_addr == some 0)

theorem getLast?_cons_append_singleton {α : Type} (a b : α) (l : List α) :
    (a :: (l ++ [b])).getLast? = some b := by
  rw [← List.cons_append]
  exact List.getLast?_concat _

theorem ptrace_run_facts (env : PtraceEnv) (f : Nat) (args : List Nat)
    (out : PtraceOutcome)
    (h : ptrace_call_remote_function_with_trap_callback env f args = some out) :
    out.success = (reaches_final_store env && terminal_segv_zero env) ∧
    out.result_written =
      (if reaches_final_store env = true then
        env.final_regs.map registers_retval
      else none) ∧
    out.detached = reaches_final_store env ∧
    (out.detached = true →
      ∃ b, env.init_regs = some b ∧ out.setregs_hist.getLast? = some b) := by
  rcases hw : wait_loop env env.waits 0 with ⟨ex, hist⟩
  unfold ptrace_call_remote_function_with_trap_callback at h
  unfold reaches_final_store terminal_segv_zero
  rw [hw] at h ⊢
  cases ha : env.attach_ok
  · simp [ha] at h
    subst h
    simp [ha]
  · simp [ha] at h
    cases hi : env.init_regs
    · simp [hi] at h
      subst h
      simp [ha, hi]
    · simp [hi] at h
      cases hs0 : env.setregs0_ok
      · simp [hs0] at h
        subst h
        simp [ha, hi, hs0]
      · simp [hs0] at h
        cases hc0 : env.cont0_ok
        · simp [hc0] at h
          subst h
          simp [ha, hi, hs0, hc0]
        · simp [hc0] at h
          cases ex
          case hung => simp at h
          case waitErr =>
            simp at h
            subst h
            simp [ha, hi, hs0, hc0]
          case procExit =>
            simp at h
            subst h
            simp [ha, hi, hs0, hc0]
          case finalStop sig =>
            simp at h
            cases hsi : env.siginfo_addr
            · simp [hsi] at h
              subst h
              simp [ha, hi, hs0, hc0, hsi]
            · simp [hsi] at h
              cases hfr : env.final_regs
              · simp [hfr] at h
                subst h
                simp [ha, hi, hs0, hc0, hsi, hfr]
              · simp [hfr] at h
                cases hre : env.restore_ok
                · simp [hre] at h
                  subst h
                  simp [ha, hi, hs0, hc0, hsi, hfr, hre]
                · simp [hre] at h
                  cases hd : env.detach_ok
                  · simp [hd] at h
                    subst h
                    simp [ha, hi, hs0, hc0, hsi, hfr, hre, hd]
                  · simp [hd] at h
                    subst h
                    simp [ha, hi, hs0, hc0, hsi, hfr, hre, hd,
                      getLast?_cons_append_singleton]

/-- Register snapshot used by the concrete ptrace runs: all of x0 .. x30
zero, sp 1000, pc 100, pstate 0. -/
def regsA : RegisterSet := ⟨List.replicate 31 0, 1000, 100, 0⟩

/-- Run in which the remote function returns (final stop SIGSEGV at address
0) and every cleanup step succeeds except PTRACE_DETACH. -/
def envC2 : PtraceEnv :=
  ⟨true, some regsA, true, true, false, [.stopped 11], fun _ => true,
   fun _ => none, fun _ => true, fun _ => true, some 0, some regsA, true, false⟩

/-- C2 counterexample: the final stop is SIGSEGV with si_addr exactly 0,
yet the call reports failure, because the detach that follows the restore
failed (ptrace.c lines 251-254 return false before the signal check of
line 260 is reached). -/
theorem ptrace_failure_despite_segv_zero :
    envC2.waits = [WaitEvent.stopped SIGSEGV] ∧ envC2.siginfo_addr = some 0 ∧
    (ptrace_call_remote_function_with_trap_callback envC2 500 [1, 2, 3, 4, 5, 6]).map
      PtraceOutcome.success = some false := by decide

/-- C2 (amended): a run that returns reports success iff the terminal stop
is SIGSEGV with si_addr exactly 0 and the post-stop steps — getsiginfo, the
final getregs, the restore of the backup, and detach — all succeed; in
particular any other terminal signal yields a failure report even if a
return value was obtained. -/
theorem ptrace_success_iff_segv_zero_and_cleanup (env : PtraceEnv) (f : Nat)
    (args : List Nat) (out : PtraceOutcome)
    (h : ptrace_call_remote_function_with_trap_callback env f args = some out) :
    out.success = true ↔ (reaches_final_store env && terminal_segv_zero env) = true := by
  rw [(ptrace_run_facts env f args out h).1]

/-- envC2 with the detach succeeding: a fully successful call. -/
def envC2w : PtraceEnv :=
  ⟨true, some regsA, true, true, false, [.stopped 11], fun _ => true,
   fun _ => none, fun _ => true, fun _ => true, some 0, some regsA, true, true⟩

/-- The outcome of the envC2w run. -/
def outC2w : PtraceOutcome :=
  ⟨true, some 0, [registers_setup_call regsA [1, 2, 3, 4, 5, 6] 500 0, regsA], true⟩

theorem ptrace_success_iff_segv_zero_and_cleanup_witness :
    outC2w.success = true ↔
      (reaches_final_store envC2w && terminal_segv_zero envC2w) = true :=
  ptrace_success_iff_segv_zero_and_cleanup envC2w 500 [1, 2, 3, 4, 5, 6] outC2w
    (by decide)

/-- Run that attaches and hijacks the registers (setregs succeeds) but
whose first PTRACE_CONT fails. -/
def envC3 : PtraceEnv :=
  ⟨true, some regsA, true, false, false, [], fun _ => true,
   fun _ => none, fun _ => true, fun _ => true, some 0, some regsA, true, true⟩

/-- C3 counterexample: the attach succeeded and the hijacked register set
(pc = the remote function address 500) was injected, but the run exits with
neither a restore of the backup (whose pc is 100) nor a detach: the only
setregs ever issued is the hijack, and detached is false (the early return
at ptrace.c line 203). -/
theorem ptrace_no_restore_no_detach_after_attach :
    envC3.attach_ok = true ∧ envC3.init_regs = some regsA ∧
    (ptrace_call_remote_function_with_trap_callback envC3 500 [1, 2, 3, 4, 5, 6]).map
      (fun o => (o.detached, o.setregs_hist.map RegisterSet.pc)) =
      some (false, [500]) ∧
    regsA.pc ≠ 500 := by decide

/-- C3 (amended): the backup snapshot taken right after attach is restored
before detach on every run that attempts the detach, and every successful
call detaches; runs that fail between attach and the post-stop register
read return early without restoring or detaching. -/
theorem ptrace_restore_precedes_detach (env : PtraceEnv) (f : Nat)
    (args : List Nat) (out : PtraceOutcome)
    (h : ptrace_call_remote_function_with_trap_callback env f args = some out) :
    (out.detached = true →
      ∃ b, env.init_regs = some b ∧ out.setregs_hist.getLast? = some b) ∧
    (out.success = true → out.detached = true) := by
  obtain ⟨h1, h2, h3, h4⟩ := ptrace_run_facts env f args out h
  refine ⟨h4, ?_⟩
  intro hs
  rw [h1] at hs
  simp only [Bool.and_eq_true] at hs
  rw [h3]
  exact hs.1

theorem ptrace_restore_precedes_detach_witness :
    ((outC2w.detached = true →
      ∃ b, envC2w.init_regs = some b ∧ outC2w.setregs_hist.getLast? = some b) ∧
     (outC2w.success = true → outC2w.detached = true)) :=
  ptrace_restore_precedes_detach envC2w 500 [1, 2, 3, 4, 5, 6] outC2w (by decide)

theorem reaches_final_store_final_regs (env : PtraceEnv)
    (h : reaches_final_store env = true) : env.final_regs.isSome = true := by
  unfold reaches_final_store at h
  simp only [Bool.and_eq_true] at h
  tauto

/-- C10: the value of the return-value register is stored through
func_result exactly on runs that get through getsiginfo, the final getregs,
the restore and the detach — including failing runs whose terminal signal
is not SIGSEGV at address 0 — and on no earlier-failing run, which leaves
the output parameter unmodified. -/
theorem ptrace_result_written_iff (env : PtraceEnv) (f : Nat)
    (args : List Nat) (out : PtraceOutcome)
    (h : ptrace_call_remote_function_with_trap_callback env f args = some out) :
    (out.result_written.isSome = true ↔ reaches_final_store env = true) ∧
    (reaches_final_store env = true →
      ∃ fr, env.final_regs = some fr ∧
        out.result_written = some (registers_retval fr)) ∧
    ((reaches_final_store env = true ∧ terminal_segv_zero env = false) →
      (out.success = false ∧ out.result_written.isSome = true)) := by
  obtain ⟨h1, h2, h3, h4⟩ := ptrace_run_facts env f args out h
  refine ⟨?_, ?_, ?_⟩
  · rw [h2]
    cases hr : reaches_final_store env
    · simp
    · simp only [if_true, reduceIte]
      simp [Option.isSome_map]
      exact reaches_final_store_final_regs env hr
  · intro hr
    obtain ⟨fr, hfr⟩ := Option.isSome_iff_exists.mp (reaches_final_store_final_regs env hr)
    exact ⟨fr, hfr, by rw [h2, if_pos hr, hfr]; rfl⟩
  · intro ⟨hr, ht⟩
    constructor
    · rw [h1, hr, ht]
      rfl
    · rw [h2, if_pos hr]
      simp [Option.isSome_map]
      exact reaches_final_store_final_regs env hr

/-- envC2w with si_addr 4: the terminal stop is SIGSEGV at a nonzero
address, a failing run on which the return value is still stored. -/
def envC10 : PtraceEnv :=
  ⟨true, some regsA, true, true, false, [.stopped 11], fun _ => true,
   fun _ => none, fun _ => true, fun _ => true, some 4, some regsA, true, true⟩

/-- The outcome of the envC10 run. -/
def outC10 : PtraceOutcome :=
  ⟨false, some 0, [registers_setup_call regsA [1, 2, 3, 4, 5, 6] 500 0, regsA], true⟩

theorem ptrace_result_written_iff_witness :
    ((outC10.result_written.isSome = true ↔ reaches_final_store envC10 = true) ∧
     (reaches_final_store envC10 = true →
       ∃ fr, envC10.final_regs = some fr ∧
         outC10.result_written = some (registers_retval fr)) ∧
     ((reaches_final_store envC10 = true ∧ terminal_segv_zero envC10 = false) →
       (outC10.success = false ∧ outC10.result_written.isSome = true))) :=
  ptrace_result_written_iff envC10 500 [1, 2, 3, 4, 5, 6] outC10 (by decide)

/-! ## Cross-process symbol resolution: remote.c -/

/-- Oracle for one remote_dlsym call (remote.c lines 105-121): whether
dlopen succeeds, the local address dlsym resolves (none on failure), and
the parsed maps snapshots of the observer and of the target (none when
maps_iterate fails to open the file). -/
structure ResolveEnv where
  dlopen_ok : Bool
  dlsym_addr : Option Nat
  local_maps : Option (List maps_entry_t)
  target_maps : Option (List maps_entry_t)

/-- The maps_iterate_find_by_addr query (remote.c lines 32-41): the visitor
stops at the first region with start_addr ≤ addr < end_addr, so the whole
traversal is List.find? with that test. -/
def maps_find_by_addr (l : List maps_entry_t) (a : Nat) : Option maps_entry_t :=
  l.find? (fun e => decide (a ≥ e.start_addr) && decide (a < e.end_addr))

/-- The maps_iterate_find_equivalent query (remote.c lines 49-62): the
visitor stops at the first region whose length equals the reference length
and whose permissions and pathname strings compare equal. -/
def maps_find_equivalent (l : List maps_entry_t) (ref : maps_entry_t) :
    Option maps_entry_t :=
  l.find? (fun e =>
    (e.end_addr - e.start_addr == ref.end_addr - ref.start_addr) &&
    (e.permissions == ref.permissions) && (e.pathname == ref.pathname))

/-- find_remote_addr (remote.c lines 64-103): locate the local region
holding local_addr, locate the equivalent region of the target, and add
the in-region offset of local_addr to the start of the target region; any
failed lookup is a hard failure (none). -/
def find_remote_addr (env : ResolveEnv) (local_addr : Nat) : Option Nat :=
  match env.local_maps with
  | none => none
  | some lm =>
    match maps_find_by_addr lm local_addr with
    | none => none
    | some lr =>
      match env.target_maps with
      | none => none
      | some tm =>
        match maps_find_equivalent tm lr with
        | none => none
        | some tr => some (tr.start_addr + (local_addr - lr.start_addr))

/-- remote_dlsym (remote.c lines 105-121): dlopen the library, dlsym the
symbol locally, then translate through find_remote_addr. -/
def remote_dlsym (env : ResolveEnv) : Option Nat :=
  if ¬ env.dlopen_ok then none
  else
    match env.dlsym_addr with
    | none => none
    | some a => find_remote_addr env a

/-- C6: every successful resolution went through dlopen, dlsym, both maps
snapshots and both region lookups, and returns
target_region.start + (local_addr − local_region.start), with local_region
the first local region containing the locally resolved address and
target_region the first region of the target with the same length and
identical permission and path strings; contrapositively, if any of those
lookups fails no result is produced (hard failure). -/
theorem remote_dlsym_translates_by_region_offset (env : ResolveEnv) (r : Nat)
    (h : remote_dlsym env = some r) :
    ∃ a lm lr tm tr,
      env.dlopen_ok = true ∧ env.dlsym_addr = some a ∧
      env.local_maps = some lm ∧ maps_find_by_addr lm a = some lr ∧
      env.target_maps = some tm ∧ maps_find_equivalent tm lr = some tr ∧
      r = tr.start_addr + (a - lr.start_addr) := by
  unfold remote_dlsym find_remote_addr at h
  cases ho : env.dlopen_ok
  · rw [ho] at h
    simp at h
  · rw [ho] at h
    rw [if_neg (by simp)] at h
    cases ha : env.dlsym_addr
    · rw [ha] at h
      simp at h
    · rename_i a
      simp only [ha] at h
      cases hlm : env.local_maps
      · rw [hlm] at h
        simp at h
      · rename_i lm
        simp only [hlm] at h
        cases hba : maps_find_by_addr lm a
        · rw [hba] at h
          simp at h
        · rename_i lr
          simp only [hba] at h
          cases htm : env.target_maps
          · rw [htm] at h
            simp at h
          · rename_i tm
            simp only [htm] at h
            cases heq : maps_find_equivalent tm lr
            · rw [heq] at h
              simp at h
            · rename_i tr
              simp only [heq, Option.some.injEq] at h
              exact ⟨a, lm, lr, tm, tr, rfl, rfl, rfl, hba, rfl, heq, h.symm⟩

/-- Local region of the C6 witness. -/
def localRgnC6 : maps_entry_t := ⟨28672, 32768, "r-xp", 0, "fe:01", 5, "/lib/libc.so"⟩

/-- Target region of the C6 witness: same length, permissions and path,
different base. -/
def targetRgnC6 : maps_entry_t := ⟨36864, 40960, "r-xp", 0, "fe:01", 5, "/lib/libc.so"⟩

/-- Resolution oracle of the C6 witness: dlsym resolves the symbol at
offset 256 into the local region. -/
def envC6 : ResolveEnv := ⟨true, some 28928, some [localRgnC6], some [targetRgnC6]⟩

theorem remote_dlsym_translates_by_region_offset_witness :
    ∃ a lm lr tm tr,
      envC6.dlopen_ok = true ∧ envC6.dlsym_addr = some a ∧
      envC6.local_maps = some lm ∧ maps_find_by_addr lm a = some lr ∧
      envC6.target_maps = some tm ∧ maps_find_equivalent tm lr = some tr ∧
      37120 = tr.start_addr + (a - lr.start_addr) :=
  remote_dlsym_translates_by_region_offset envC6 37120 (by decide)

/-! ## The shared-buffer cursor across a walk -/

/-- Header state of the shared buffer: the two 64-bit header words. -/
structure BufState where
  max_valid : Nat
  next_free : Nat
deriving DecidableEq, Repr

/-- The store step of the trampoline remote_callback_start (heap.c lines
78-79), taken after its while loop exits, i.e. when
data[NEXT_FREE_IDX] < data[MAX_VALID_IDX]: base is stored at word index
next_free and size at word index next_free + 1, each store followed by a
post-increment of the cursor, so the cursor advances by ENTRY_SIZE. -/
def remote_callback_store (st : BufState) : BufState :=
  { st with next_free := st.next_free + ENTRY_SIZE }

/-- The cursor reset a drain writes back (heap.c lines 131-133). -/
def buf_drain_reset (st : BufState) : BufState :=
  { st with next_free := HEADER_SIZE }

/-- The header heap_iterate writes during provisioning (heap.c lines
173-175): max valid word index page / 8, cursor HEADER_SIZE. -/
def initial_buf (page : Nat) : BufState := ⟨page / 8, HEADER_SIZE⟩

/-- The header states reachable during one walk: the initial header, a
trampoline store taken under its guard, and an observer drain reset. -/
inductive BufReach (page : Nat) : BufState → Prop
  | init : BufReach page (initial_buf page)
  | store (st : BufState) : BufReach page st →
      st.next_free < st.max_valid → BufReach page (remote_callback_store st)
  | drain (st : BufState) : BufReach page st → BufReach page (buf_drain_reset st)

/-- C9: at every reachable header state the cursor is an even word index
at least HEADER_SIZE = 2 and the max valid index stays page / 8, which is
even for the power-of-two page sizes (16 ∣ page); hence whenever the
trampoline passes its next_free < max_valid guard, both of its 8-byte
stores (at word indexes next_free and next_free + 1) land strictly inside
the page-sized buffer. -/
theorem buf_cursor_even_and_stores_in_page (page : Nat) (st : BufState)
    (hp : 16 ∣ page) (h : BufReach page st) :
    2 ≤ st.next_free ∧ 2 ∣ st.next_free ∧ st.max_valid = page / 8 ∧
    2 ∣ st.max_valid ∧
    (st.next_free < st.max_valid →
      st.next_free + 1 < st.max_valid ∧ 8 * (st.next_free + 1) + 8 ≤ page) := by
  obtain ⟨k, hk⟩ := hp
  subst hk
  induction h with
  | init =>
    refine ⟨?_, ?_, rfl, ?_, ?_⟩ <;> simp only [initial_buf, HEADER_SIZE] <;> omega
  | store st hr hlt ih =>
    obtain ⟨ih1, ih2, ih3, ih4, ih5⟩ := ih
    simp only [remote_callback_store, ENTRY_SIZE] at *
    refine ⟨by omega, by omega, ih3, ih4, ?_⟩
    intro hlt2
    omega
  | drain st hr ih =>
    obtain ⟨ih1, ih2, ih3, ih4, ih5⟩ := ih
    simp only [buf_drain_reset, HEADER_SIZE] at *
    refine ⟨le_refl 2, ⟨1, rfl⟩, ih3, ih4, ?_⟩
    intro hlt2
    omega

theorem buf_cursor_even_and_stores_in_page_witness :
    (16 ∣ 64) ∧
    (2 ≤ (remote_callback_store (initial_buf 64)).next_free ∧
     2 ∣ (remote_callback_store (initial_buf 64)).next_free ∧
     (remote_callback_store (initial_buf 64)).max_valid = 64 / 8 ∧
     2 ∣ (remote_callback_store (initial_buf 64)).max_valid ∧
     ((remote_callback_store (initial_buf 64)).next_free <
        (remote_callback_store (initial_buf 64)).max_valid →
       (remote_callback_store (initial_buf 64)).next_free + 1 <
          (remote_callback_store (initial_buf 64)).max_valid ∧
       8 * ((remote_callback_store (initial_buf 64)).next_free + 1) + 8 ≤ 64)) :=
  ⟨⟨4, rfl⟩,
   buf_cursor_even_and_stores_in_page 64 (remote_callback_store (initial_buf 64))
     ⟨4, rfl⟩
     (BufReach.store (initial_buf 64) BufReach.init (by decide))⟩
